import Mathlib

/-!
Shallow embedding of the github-repo-jutsu pipeline
(src/services/geminiService.ts and src/services/githubService.ts).

Strings are modelled as `List Char` where character-level reasoning is
needed (trimming, regex-style matching, substring search), with `String`
wrappers at the interfaces. Fallible JS code (`throw` / `catch`) is
modelled with `Except String` carrying the thrown error message; network
effects are modelled by passing the outcome of each outbound call as an
explicit argument.
-/

/-- JS whitespace class `\s` (also the character set removed by
`String.prototype.trim`): tab, LF, VT, FF, CR, space, NBSP, Ogham space,
the U+2000..U+200A range, LS, PS, NNBSP, MMSP, ideographic space, BOM. -/
def jsWs (c : Char) : Bool :=
  let n := c.toNat
  n == 9 || n == 10 || n == 11 || n == 12 || n == 13 || n == 32 ||
  n == 160 || n == 5760 || (decide (8192 ≤ n) && decide (n ≤ 8202)) ||
  n == 8232 || n == 8233 || n == 8239 || n == 8287 || n == 12288 || n == 65279

/-- JS `String.prototype.trim`: drop leading and trailing `jsWs` characters. -/
def jsTrim (l : List Char) : List Char :=
  ((l.dropWhile jsWs).reverse.dropWhile jsWs).reverse

/-- JS `String.prototype.includes(pat)`: `pat` occurs as a contiguous
substring (the empty pattern always occurs). -/
def hasSub (pat : List Char) : List Char → Bool
  | [] => pat.isEmpty
  | c :: r => pat.isPrefixOf (c :: r) || hasSub pat r

/-- `String`-level wrapper for `hasSub`, modelling `s.includes(pat)`. -/
def strIncludes (s pat : String) : Bool := hasSub pat.toList s.toList

/-- The literal triple-backtick fence marker. -/
def backtick3 : List Char := ['`', '`', '`']

/-- The characters `"\n```"` that close a wrapped payload. -/
def fenceTail : List Char := '\n' :: backtick3

/-- Does `l` match the closing part `\n?\s*`+ three backticks at end-of-string
of the fence regex `^`+3 backticks+`(?:json)?\s*\n?([\s\S]*?)\n?\s*`+3 backticks+`$`
(geminiService.ts:127)?  Since `\n` is itself in `\s`, the closing part
consumes `l` exactly when `l` is all-whitespace followed by a final
triple backtick anchored at the end of the string. -/
def tailIsFenceEnd (l : List Char) : Bool :=
  match l.reverse with
  | a :: b :: c :: w => a == '`' && b == '`' && c == '`' && w.all jsWs
  | _ => false

/-- The lazy capture group `([\s\S]*?)` of the fence regex: the shortest
front segment of `l` whose remainder matches the closing part of the
fence.  Returns `none` when no split matches (i.e. `l` does not end in a
triple backtick). -/
def fenceCapture (l : List Char) : Option (List Char) :=
  if tailIsFenceEnd l then some []
  else
    match l with
    | [] => none
    | c :: r => (fenceCapture r).map (c :: ·)

/-- Does `l` end in a triple backtick? (`l.reverse` starts with three
backticks). -/
def tailTicks (l : List Char) : Bool :=
  match l.reverse with
  | a :: b :: c :: _ => a == '`' && b == '`' && c == '`'
  | _ => false

/-- geminiService.ts:127-131, the fence-stripping step applied to the
(already trimmed) response text `jsonStr`:

    const fenceRegex = regex anchored start/end, with optional json tag;
    const match = jsonStr.match(fenceRegex);
    if (match && match[1]) jsonStr = match[1].trim();

The JS regex `^`+3 backticks+`(?:json)?\s*\n?([\s\S]*?)\n?\s*`+3 backticks+`$`
is executed by a backtracking engine: the optional literal `json` is taken
greedily when present (and taking it never turns an otherwise successful
match into a failure, as the final backticks cannot overlap the `json`
literal), `\s*` greedily consumes the maximal whitespace run (after which
`\n?` is necessarily empty, `\n` being whitespace; the maximal run succeeds
whenever any choice does, because the overall match only requires the
string to end in a triple backtick, which whitespace consumption cannot
destroy), and the lazy group takes the shortest capture whose remainder is
whitespace followed by the final triple backtick.  `match[1]` being the
empty string is falsy in JS, in which case the text is left unmodified.
`dropJsonTag` is the greedy optional literal `(?:json)?`. -/
def dropJsonTag (l : List Char) : List Char :=
  if ("json".toList).isPrefixOf l then l.drop 4 else l

/-- The fence-stripping step itself; see `dropJsonTag` above for the
regex reading of the pieces (`s.drop 3` consumes the opening backticks,
`dropWhile jsWs` is the greedy `\s*` together with the subsumed `\n?`,
and `fenceCapture` is the lazy capture against the anchored closing
part). -/
def unwrapFence (s : List Char) : List Char :=
  if backtick3.isPrefixOf s then
    match fenceCapture ((dropJsonTag (s.drop 3)).dropWhile jsWs) with
    | some cap => if cap.isEmpty then s else jsTrim cap
    | none => s
  else s

/-- A payload wrapped in an anchored fence with the `json` tag:
three backticks, `json`, a newline, the payload, a newline, three backticks. -/
def wrapJson (p : List Char) : List Char :=
  "```json\n".toList ++ p ++ "\n```".toList

/-- A payload wrapped in an anchored fence without the `json` tag. -/
def wrapPlain (p : List Char) : List Char :=
  "```\n".toList ++ p ++ "\n```".toList

/-- The first character of `l` (if any) is not JS whitespace. -/
def noWsHead (l : List Char) : Bool :=
  match l with
  | [] => true
  | c :: _ => !(jsWs c)

/-- The last character of `l` (if any) is not JS whitespace. -/
def noWsLast (l : List Char) : Bool :=
  match l.getLast? with
  | some c => !(jsWs c)
  | none => true

/-- The `AnimeBadge` record of src/types.ts: four string fields. -/
structure AnimeBadge where
  characterName : String
  anime : String
  reason : String
  badgeColor : String
deriving DecidableEq, Repr

/-- The result of `JSON.parse` on a response payload that parsed as an
object, as seen by the field checks of geminiService.ts:135: each of the
four expected fields is either absent (`none`, JS `undefined`) or a
string. -/
structure ParsedBadge where
  characterName : Option String
  anime : Option String
  reason : Option String
  badgeColor : Option String
deriving DecidableEq, Repr

/-- JS truthiness of a possibly-absent string field: `undefined` and the
empty string are falsy, every other string is truthy. -/
def strTruthy : Option String → Bool
  | none => false
  | some s => s != ""

/-- geminiService.ts:133-139 after a successful parse: the four-field
truthiness check and the resulting `AnimeBadge` (the thrown error is the
`Except.error` message). -/
def validateBadge (p : ParsedBadge) : Except String AnimeBadge :=
  if strTruthy p.characterName && strTruthy p.anime &&
     strTruthy p.reason && strTruthy p.badgeColor then
    .ok ⟨p.characterName.getD "", p.anime.getD "", p.reason.getD "", p.badgeColor.getD ""⟩
  else
    .error "AI response is missing required fields."

/-- A caught JS error as inspected by the `catch` blocks: its `name` and
`message` properties. -/
structure JsError where
  name : String
  message : String
deriving DecidableEq, Repr

/-- The characters of the literal `"Bearer "`. -/
def bearerTok : List Char := "Bearer ".toList

/-- The characters of the replacement `"Bearer [REDACTED]"`. -/
def redactedTok : List Char := "Bearer [REDACTED]".toList

/-- Fuel-indexed scanner for `message.replace(bearer-token regex with
global flag, the redaction text)` (geminiService.ts:155): scan left to
right; at each position, if the text starts with `Bearer ` followed by at
least one non-whitespace character, replace `Bearer ` and the maximal
non-whitespace run by the redaction and continue after it (non-overlapping
global replace); otherwise move one character forward.  The fuel is only a
structural-recursion device; `sanitizeBearer` supplies `l.length`, which
the scan can never exhaust since every step consumes at least one
character. -/
def sanitizeBearerGo : Nat → List Char → List Char
  | 0, l => l
  | _, [] => []
  | fuel + 1, c :: r =>
    if bearerTok.isPrefixOf (c :: r) then
      let rest := r.drop 6
      if rest.head?.any (fun ch => !(jsWs ch)) then
        redactedTok ++ sanitizeBearerGo fuel (rest.dropWhile (fun ch => !(jsWs ch)))
      else
        c :: sanitizeBearerGo fuel r
    else
      c :: sanitizeBearerGo fuel r

/-- `message.replace(bearer-token regex, redaction text)`. -/
def sanitizeBearer (l : List Char) : List Char :=
  sanitizeBearerGo l.length l

/-- The `catch` block of the OpenRouter `getAnimeBadge`
(geminiService.ts:141-156): classify a caught error by name and message
markers and produce the message of the error finally thrown.
the or-else chaining after the replace call makes an empty sanitized
message fall back to `Unknown error`. -/
def catchBadge (e : JsError) : String :=
  if e.name == "AbortError" then
    "Request timed out. Please try again."
  else if strIncludes e.message "JSON.parse" then
    "The AI returned an invalid response. Please try again."
  else if strIncludes e.message "environment variable" then
    e.message
  else
    let m := sanitizeBearer e.message.toList
    let m := if m.isEmpty then "Unknown error".toList else m
    "Failed to get anime badge from OpenRouter: " ++ String.mk m

/-- `data.choices[i].message` of the OpenRouter chat-completion response. -/
structure ORMessage where
  content : String
deriving DecidableEq, Repr

/-- One entry of `data.choices`; `message` may be absent. -/
structure ORChoice where
  message : Option ORMessage
deriving DecidableEq, Repr

/-- The JSON body of a successful OpenRouter response as inspected by
geminiService.ts:121: `choices` may be absent, and may be an empty array
(in which case `choices[0]` is `undefined`). -/
structure ORData where
  choices : Option (List ORChoice)
deriving DecidableEq, Repr

/-- geminiService.ts:125-131: trim the message content, then strip an
optional anchored code fence. -/
def prepContent (content : String) : String :=
  String.mk (unwrapFence (jsTrim content.toList))

/-- geminiService.ts:119-157, the OpenRouter `getAnimeBadge` continuation
after an HTTP-successful response whose JSON body is `d`.  `parse` is the
behaviour of the platform `JSON.parse` on the prepared text: `.ok` with
the parsed object, or `.error` with the `SyntaxError` message it throws
(JSON.parse itself is a platform primitive, not repository code).  Every
throw inside the `try` block flows through `catchBadge`. -/
def getAnimeBadgeFromData (parse : String → Except String ParsedBadge)
    (d : ORData) : Except String AnimeBadge :=
  match d.choices with
  | some (c0 :: _) =>
    match c0.message with
    | some m =>
      match parse (prepContent m.content) with
      | .error pm => .error (catchBadge ⟨"SyntaxError", pm⟩)
      | .ok p =>
        match validateBadge p with
        | .error vm => .error (catchBadge ⟨"Error", vm⟩)
        | .ok b => .ok b
    | none => .error (catchBadge ⟨"Error", "Invalid response structure from OpenRouter API"⟩)
  | _ => .error (catchBadge ⟨"Error", "Invalid response structure from OpenRouter API"⟩)

/-- The static character-image map of the lookup avatar resolver
(geminiService.ts:321-342), as an association list in source order. -/
def characterImages : List (String × String) :=
  [("Naruto", "https://cdn.myanimelist.net/images/characters/2/284121.jpg"),
   ("Sasuke", "https://cdn.myanimelist.net/images/characters/9/131317.jpg"),
   ("Kakashi", "https://cdn.myanimelist.net/images/characters/7/284129.jpg"),
   ("Sakura", "https://cdn.myanimelist.net/images/characters/9/69275.jpg"),
   ("Itachi", "https://cdn.myanimelist.net/images/characters/9/284167.jpg"),
   ("Gaara", "https://cdn.myanimelist.net/images/characters/8/284139.jpg"),
   ("Rock Lee", "https://cdn.myanimelist.net/images/characters/11/253723.jpg"),
   ("Neji", "https://cdn.myanimelist.net/images/characters/2/284133.jpg"),
   ("Shikamaru", "https://cdn.myanimelist.net/images/characters/3/284135.jpg"),
   ("Hinata", "https://cdn.myanimelist.net/images/characters/5/284137.jpg"),
   ("Tanjiro", "https://cdn.myanimelist.net/images/characters/15/271763.jpg"),
   ("Nezuko", "https://cdn.myanimelist.net/images/characters/3/271765.jpg"),
   ("Zenitsu", "https://cdn.myanimelist.net/images/characters/7/271767.jpg"),
   ("Inosuke", "https://cdn.myanimelist.net/images/characters/9/271769.jpg"),
   ("Giyu", "https://cdn.myanimelist.net/images/characters/11/271771.jpg"),
   ("Rengoku", "https://cdn.myanimelist.net/images/characters/13/271773.jpg"),
   ("Shinobu", "https://cdn.myanimelist.net/images/characters/5/271775.jpg"),
   ("Mitsuri", "https://cdn.myanimelist.net/images/characters/7/271777.jpg"),
   ("Obanai", "https://cdn.myanimelist.net/images/characters/9/271779.jpg"),
   ("Tengen", "https://cdn.myanimelist.net/images/characters/11/271781.jpg")]

/-- One entry of the Jikan character-search response `data` array:
`images?.jpg?.image_url` flattened to the optionally-present URL string
(absent when any link of the optional chain is missing). -/
structure JikanEntry where
  imageUrl : Option String
deriving DecidableEq, Repr

/-- Outcome of the Jikan character-search call as seen by
geminiService.ts:359-374: either the `fetch`/`json()` promise rejected
with an error message, or a response arrived with the given `ok` flag,
status, and (when consulted) parsed `data` array (`none` models an absent
or non-array `data` field). -/
inductive JikanOutcome where
  | reject (msg : String)
  | resp (ok : Bool) (status : Nat) (data : Option (List JikanEntry))
deriving DecidableEq, Repr

/-- The ultimate per-series fallback (geminiService.ts:377-382):
index `fallbackImages` by the anime value, or-else take the Naruto
entry. -/
def jikanFallback (anime : String) : String :=
  if anime == "Naruto" then
    "https://cdn.myanimelist.net/images/characters/2/284121.jpg"
  else if anime == "Demon Slayer" then
    "https://cdn.myanimelist.net/images/characters/15/271763.jpg"
  else
    "https://cdn.myanimelist.net/images/characters/2/284121.jpg"

/-- The default avatar returned by the `catch` block of the lookup
resolver (geminiService.ts:388). -/
def defaultAvatarImg : String :=
  "https://cdn.myanimelist.net/images/characters/2/284121.jpg"

/-- The `try` block of the lookup `generateAvatar`
(geminiService.ts:350-382): static map, then Jikan search, then per-series
fallback.  (The map lookup models own-property lookup on the object
literal.) -/
def avatarTryBody (badge : AnimeBadge) (jk : JikanOutcome) : Except String String :=
  match characterImages.lookup badge.characterName with
  | some url => .ok url
  | none =>
    match jk with
    | .reject msg => .error msg
    | .resp ok status data =>
      if !ok then .error ("Jikan API error: " ++ toString status)
      else
        match data with
        | some (e :: _) =>
          match e.imageUrl with
          | some u => if u != "" then .ok u else .ok (jikanFallback badge.anime)
          | none => .ok (jikanFallback badge.anime)
        | _ => .ok (jikanFallback badge.anime)

/-- The lookup-variant `generateAvatar` (geminiService.ts:344-390): input
validation outside the `try` block (its throw escapes), then the tiered
body whose every failure is swallowed by the `catch`, which returns the
default avatar. -/
def generateAvatarLookup (badge : AnimeBadge) (jk : JikanOutcome) : Except String String :=
  if badge.characterName == "" || badge.anime == "" then
    .error "Invalid badge data provided"
  else
    match avatarTryBody badge jk with
    | .ok url => .ok url
    | .error _ => .ok defaultAvatarImg

/-- Outcome of the ImageRouter image-generation call as seen by
geminiService.ts:173-205: a rejected promise (with the `name` and
`message`, e.g. an `AbortError` on timeout), or a response with `ok` flag,
status, status text, and the optionally-present `image.base64` payload. -/
inductive ImgOutcome where
  | reject (name : String) (msg : String)
  | resp (ok : Bool) (status : Nat) (statusText : String) (image : Option String)
deriving DecidableEq, Repr

/-- The image prompt built by the generative `generateAvatar`
(geminiService.ts:167). -/
def imagePrompt (badge : AnimeBadge) : String :=
  "Create a visually stunning, anime-style avatar for a GitHub profile picture. The character is "
    ++ badge.characterName ++ " from " ++ badge.anime ++
    ". The avatar should be a circular headshot, vibrant, and capture their essence. The background should be simple and abstract, using thematic colors like "
    ++ badge.badgeColor ++ ". The style should be modern anime, clean, and professional."

/-- The generative-variant `generateAvatar` (geminiService.ts:160-221):
three-field input validation before the `try` block (and hence before the
prompt is used in any request), then the ImageRouter call and the `catch`
classification (timeout, configuration passthrough, sanitized wrap). -/
def generateAvatarGen (badge : AnimeBadge) (net : ImgOutcome) : Except String String :=
  if badge.characterName == "" || badge.anime == "" || badge.badgeColor == "" then
    .error "Invalid badge data provided"
  else
    let tryBody : Except JsError String :=
      match net with
      | .reject n m => .error ⟨n, m⟩
      | .resp ok status statusText image =>
        if !ok then
          .error ⟨"Error", "ImageRouter API error: " ++ toString status ++ " " ++ statusText⟩
        else
          match image with
          | some b64 =>
            if b64 != "" then .ok ("data:image/jpeg;base64," ++ b64)
            else .error ⟨"Error", "ImageRouter model did not return an image."⟩
          | none => .error ⟨"Error", "ImageRouter model did not return an image."⟩
    match tryBody with
    | .ok url => .ok url
    | .error e =>
      if e.name == "AbortError" then
        .error "Image generation request timed out. Please try again."
      else if strIncludes e.message "environment variable" then
        .error e.message
      else
        let m := sanitizeBearer e.message.toList
        let m := if m.isEmpty then "Unknown error".toList else m
        .error ("Failed to generate the character avatar: " ++ String.mk m ++ ". Please try again.")

/-- An HTTP response as inspected by githubService.ts: the `ok` flag, the
status code, and the value its `json()` body resolves to on the success
path. -/
structure FetchR (α : Type) where
  ok : Bool
  status : Nat
  data : α
deriving DecidableEq, Repr

/-- `Promise.all` over the two fetch promises (githubService.ts:12): both
resolutions, or the rejection of a rejected member.  When at most one
member rejects this is exact; when both reject, JS picks whichever
rejects first in time — the model takes the error of the user fetch.
Every theorem below instantiates this only at points where at most one
argument rejects, so none depends on that timing-dependent case. -/
def promiseAll2 {α β : Type} (a : Except String α) (b : Except String β) :
    Except String (α × β) :=
  match a, b with
  | .ok x, .ok y => .ok (x, y)
  | .error e, _ => .error e
  | _, .error e => .error e

/-- githubService.ts:6-36, `getUserProfileData`: join the two concurrent
fetches, check the user response (404 versus other failure), then the
repos response, and produce the profile pair; the `catch` re-classifies
any thrown error whose message contains the rate-limit marker and
re-throws everything else unchanged. -/
def getUserProfileData {α β : Type} (username : String)
    (userF : Except String (FetchR α)) (reposF : Except String (FetchR β)) :
    Except String (α × β) :=
  let body : Except String (α × β) :=
    match promiseAll2 userF reposF with
    | .error e => .error e
    | .ok (ur, rr) =>
      if !ur.ok then
        if ur.status == 404 then
          .error ("GitHub user not found: " ++ username ++ ".")
        else
          .error ("Failed to fetch user data. Status: " ++ toString ur.status)
      else if !rr.ok then
        .error ("Failed to fetch repository data. Status: " ++ toString rr.status)
      else
        .ok (ur.data, rr.data)
  match body with
  | .error m =>
    if strIncludes m "API rate limit exceeded" then
      .error "GitHub API rate limit exceeded. Please wait and try again later."
    else
      .error m
  | .ok v => .ok v

/-- Modelled from the spec: the badge-color pattern of §3/§8 — a hash sign
followed by exactly six hexadecimal digits (upper or lower case).  This is
the spec-side comparison definition; the source never checks it. -/
def specHexColor (s : String) : Bool :=
  match s.toList with
  | '#' :: rest => rest.length == 6 && rest.all fun c =>
      (('0' ≤ c) && (c ≤ '9')) || (('A' ≤ c) && (c ≤ 'F')) || (('a' ≤ c) && (c ≤ 'f'))
  | _ => false

/-! Concrete response contents and the platform `JSON.parse` behaviour on
them, used to instantiate the pipeline at specific runs. -/

/-- A generated content text: a flat JSON object whose `badgeColor` member
is the word `blue` (not a hex colour). -/
def blueContent : String :=
  "\x7b\"characterName\":\"Zabuza\",\"anime\":\"Naruto\",\"reason\":\"A stealthy and precise operator.\",\"badgeColor\":\"blue\"\x7d"

/-- The object `JSON.parse` produces for `blueContent`. -/
def blueParsed : ParsedBadge :=
  ⟨some "Zabuza", some "Naruto", some "A stealthy and precise operator.", some "blue"⟩

/-- Platform `JSON.parse` behaviour on the run that feeds `blueContent`:
that text parses to `blueParsed` (a fact about JSON, not about this
repository). -/
def blueParse (s : String) : Except String ParsedBadge :=
  if s == blueContent then .ok blueParsed else .error "Unexpected token"

/-- An HTTP-successful OpenRouter body whose sole choice carries
`blueContent`. -/
def blueData : ORData := ⟨some [⟨some ⟨blueContent⟩⟩]⟩

/-- A generated content text: a flat JSON object with no `badgeColor`
member at all. -/
def noColorContent : String :=
  "\x7b\"characterName\":\"Kakashi\",\"anime\":\"Naruto\",\"reason\":\"Calm and versatile.\"\x7d"

/-- The object `JSON.parse` produces for `noColorContent`: `badgeColor`
is absent. -/
def noColorParsed : ParsedBadge :=
  ⟨some "Kakashi", some "Naruto", some "Calm and versatile.", none⟩

/-- Platform `JSON.parse` behaviour on the run that feeds
`noColorContent`. -/
def noColorParse (s : String) : Except String ParsedBadge :=
  if s == noColorContent then .ok noColorParsed else .error "Unexpected token"

/-- An HTTP-successful OpenRouter body whose sole choice carries
`noColorContent`. -/
def noColorData : ORData := ⟨some [⟨some ⟨noColorContent⟩⟩]⟩

/-- The `SyntaxError` message V8 (Node, Chrome — the engine running the
jest-based tests of this repository) produces for
`JSON.parse("Invalid JSON content")`.  It does not contain the substring
`JSON.parse` (SpiderMonkey-style wording). -/
def v8ParseMsg : String := "Unexpected token I in JSON at position 0"

/-- Platform `JSON.parse` behaviour on the run that feeds the non-JSON
text `Invalid JSON content` (the input used by the test of this
repository at debug-test.ts:372): it throws with `v8ParseMsg`. -/
def v8Parse (_ : String) : Except String ParsedBadge := .error v8ParseMsg

/-- An HTTP-successful OpenRouter body whose sole choice carries the
non-JSON text `Invalid JSON content`. -/
def invalidJsonData : ORData := ⟨some [⟨some ⟨"Invalid JSON content"⟩⟩]⟩

/-! Helper lemmas about the fence-stripping model. -/

theorem dropWhile_of_head {P : Char → Bool} {l : List Char}
    (h : ∀ c, l.head? = some c → P c = false) : l.dropWhile P = l := by
  cases l with
  | nil => rfl
  | cons c t => simp [List.dropWhile_cons, h c rfl]

theorem jsTrim_fix {p : List Char} (hh : noWsHead p = true) (hl : noWsLast p = true) :
    jsTrim p = p := by
  unfold jsTrim
  have h1 : p.dropWhile jsWs = p := by
    apply dropWhile_of_head
    intro c hc
    cases p with
    | nil => simp at hc
    | cons a t =>
      simp only [List.head?_cons, Option.some.injEq] at hc
      subst hc
      simpa [noWsHead] using hh
  rw [h1]
  have h2 : p.reverse.dropWhile jsWs = p.reverse := by
    apply dropWhile_of_head
    intro c hc
    rw [List.head?_reverse] at hc
    unfold noWsLast at hl
    rw [hc] at hl
    simpa using hl
  rw [h2, List.reverse_reverse]

theorem tailEnd_append (q : List Char) :
    tailIsFenceEnd (q ++ fenceTail) = q.all jsWs := by
  unfold tailIsFenceEnd
  have hrev : (q ++ fenceTail).reverse = '`' :: '`' :: '`' :: ('\n' :: q.reverse) := by
    rw [show fenceTail = ['\n', '`', '`', '`'] from rfl, List.reverse_append]
    rfl
  rw [hrev]
  show (('`' == '`') && ('`' == '`') && ('`' == '`') && ('\n' :: q.reverse).all jsWs) = q.all jsWs
  simp [List.all_cons, show jsWs '\n' = true from rfl]

theorem fenceCapture_append (p : List Char) (hl : noWsLast p = true) :
    fenceCapture (p ++ fenceTail) = some p := by
  induction p with
  | nil => decide
  | cons c t ih =>
    have hend : tailIsFenceEnd ((c :: t) ++ fenceTail) = false := by
      rw [tailEnd_append, List.all_eq_false]
      cases hgl : (c :: t).getLast? with
      | none => simp at hgl
      | some d =>
        have hd : jsWs d = false := by
          unfold noWsLast at hl
          rw [hgl] at hl
          simpa using hl
        exact ⟨d, List.mem_of_getLast?_eq_some hgl, by simp [hd]⟩
    have ht : noWsLast t = true := by
      cases t with
      | nil => rfl
      | cons x xs =>
        unfold noWsLast at hl ⊢
        rwa [List.getLast?_cons_cons] at hl
    have hstep : fenceCapture ((c :: t) ++ fenceTail) =
        if tailIsFenceEnd ((c :: t) ++ fenceTail) then some []
        else (fenceCapture (t ++ fenceTail)).map (c :: ·) := rfl
    rw [hstep, hend, if_neg (by simp), ih ht]
    rfl

theorem unwrap_notTicks {x : List Char} (h : backtick3.isPrefixOf x = false) :
    unwrapFence x = x := by
  unfold unwrapFence
  rw [h]
  rfl

theorem tailTicks_of_fenceEnd {l : List Char} (h : tailIsFenceEnd l = true) :
    tailTicks l = true := by
  unfold tailIsFenceEnd at h
  unfold tailTicks
  cases hr : l.reverse with
  | nil => rw [hr] at h; simp at h
  | cons a as =>
    cases as with
    | nil => rw [hr] at h; simp at h
    | cons b bs =>
      cases bs with
      | nil => rw [hr] at h; simp at h
      | cons c cs =>
        rw [hr] at h
        simp only [Bool.and_eq_true] at h
        simp [h.1.1.1, h.1.1.2, h.1.2]

theorem fenceCapture_ticks {l cap : List Char} (h : fenceCapture l = some cap) :
    tailTicks l = true := by
  induction l generalizing cap with
  | nil =>
    rw [show fenceCapture [] = if tailIsFenceEnd [] then some [] else none from rfl] at h
    split at h
    · exact tailTicks_of_fenceEnd (by assumption)
    · simp at h
  | cons c r ih =>
    rw [show fenceCapture (c :: r) =
        if tailIsFenceEnd (c :: r) then some []
        else (fenceCapture r).map (c :: ·) from rfl] at h
    split at h
    · exact tailTicks_of_fenceEnd (by assumption)
    · cases hr : fenceCapture r with
      | none => rw [hr] at h; simp at h
      | some cap' =>
        have htr := ih hr
        unfold tailTicks at htr ⊢
        cases hrev : r.reverse with
        | nil => rw [hrev] at htr; simp at htr
        | cons a as =>
          cases as with
          | nil => rw [hrev] at htr; simp at htr
          | cons b bs =>
            cases bs with
            | nil => rw [hrev] at htr; simp at htr
            | cons d ds =>
              rw [hrev] at htr
              have : (c :: r).reverse = a :: b :: d :: (ds ++ [c]) := by
                rw [List.reverse_cons, hrev]
                rfl
              rw [this]
              simpa using htr

theorem tailTicks_of_suffix {r t : List Char} (hs : r <:+ t)
    (h : tailTicks r = true) : tailTicks t = true := by
  obtain ⟨s, rfl⟩ := hs
  unfold tailTicks at h ⊢
  cases hrev : r.reverse with
  | nil => rw [hrev] at h; simp at h
  | cons a as =>
    cases as with
    | nil => rw [hrev] at h; simp at h
    | cons b bs =>
      cases bs with
      | nil => rw [hrev] at h; simp at h
      | cons c cs =>
        rw [hrev] at h
        have : (s ++ r).reverse = a :: b :: c :: (cs ++ s.reverse) := by
          rw [List.reverse_append, hrev]
          rfl
        rw [this]
        simpa using h

theorem unwrap_wrapJson (p : List Char) (hne : p ≠ []) (hh : noWsHead p = true)
    (hl : noWsLast p = true) : unwrapFence (wrapJson p) = p := by
  obtain ⟨c, t, rfl⟩ : ∃ c t, p = c :: t := by
    cases p with
    | nil => exact absurd rfl hne
    | cons c t => exact ⟨c, t, rfl⟩
  have hwc : jsWs c = false := by simpa [noWsHead] using hh
  have hshape : wrapJson (c :: t) =
      '`' :: '`' :: '`' :: 'j' :: 's' :: 'o' :: 'n' :: '\n' :: ((c :: t) ++ fenceTail) := rfl
  rw [hshape]
  unfold unwrapFence
  rw [if_pos (show backtick3.isPrefixOf
      ('`' :: '`' :: '`' :: 'j' :: 's' :: 'o' :: 'n' :: '\n' :: ((c :: t) ++ fenceTail)) = true
      from rfl)]
  have h1 : dropJsonTag (('`' :: '`' :: '`' :: 'j' :: 's' :: 'o' :: 'n' :: '\n' ::
      ((c :: t) ++ fenceTail)).drop 3) = '\n' :: ((c :: t) ++ fenceTail) := rfl
  rw [h1]
  have h2 : ('\n' :: ((c :: t) ++ fenceTail)).dropWhile jsWs = (c :: t) ++ fenceTail := by
    simp [List.dropWhile_cons, hwc, show jsWs '\n' = true from rfl]
  rw [h2, fenceCapture_append _ hl]
  simp [jsTrim_fix hh hl]

theorem unwrap_wrapPlain (p : List Char) (hne : p ≠ []) (hh : noWsHead p = true)
    (hl : noWsLast p = true) : unwrapFence (wrapPlain p) = p := by
  obtain ⟨c, t, rfl⟩ : ∃ c t, p = c :: t := by
    cases p with
    | nil => exact absurd rfl hne
    | cons c t => exact ⟨c, t, rfl⟩
  have hwc : jsWs c = false := by simpa [noWsHead] using hh
  have hshape : wrapPlain (c :: t) =
      '`' :: '`' :: '`' :: '\n' :: ((c :: t) ++ fenceTail) := rfl
  rw [hshape]
  unfold unwrapFence
  rw [if_pos (show backtick3.isPrefixOf
      ('`' :: '`' :: '`' :: '\n' :: ((c :: t) ++ fenceTail)) = true from rfl)]
  have h1 : dropJsonTag (('`' :: '`' :: '`' :: '\n' ::
      ((c :: t) ++ fenceTail)).drop 3) = '\n' :: ((c :: t) ++ fenceTail) := rfl
  rw [h1]
  have h2 : ('\n' :: ((c :: t) ++ fenceTail)).dropWhile jsWs = (c :: t) ++ fenceTail := by
    simp [List.dropWhile_cons, hwc, show jsWs '\n' = true from rfl]
  rw [h2, fenceCapture_append _ hl]
  simp [jsTrim_fix hh hl]

theorem unwrap_noTail {t : List Char} (h : tailTicks t = false) :
    unwrapFence t = t := by
  unfold unwrapFence
  cases hpre : backtick3.isPrefixOf t with
  | false => simp [hpre]
  | true =>
    cases hfc : fenceCapture ((dropJsonTag (t.drop 3)).dropWhile jsWs) with
    | none => simp [hpre, hfc]
    | some cap =>
      exfalso
      have h1 : tailTicks ((dropJsonTag (t.drop 3)).dropWhile jsWs) = true :=
        fenceCapture_ticks hfc
      have hs : (dropJsonTag (t.drop 3)).dropWhile jsWs <:+ t := by
        have s1 : (dropJsonTag (t.drop 3)).dropWhile jsWs <:+ dropJsonTag (t.drop 3) :=
          List.dropWhile_suffix _
        have s2 : dropJsonTag (t.drop 3) <:+ t.drop 3 := by
          unfold dropJsonTag
          split
          · exact List.drop_suffix _ _
          · exact List.suffix_refl _
        have s3 : t.drop 3 <:+ t := List.drop_suffix _ _
        exact s1.trans (s2.trans s3)
      have h2 := tailTicks_of_suffix hs h1
      rw [h] at h2
      exact Bool.false_ne_true h2

/-! Helper lemmas about badge validation and the error pipeline. -/

theorem strTruthy_getD {o : Option String} (h : strTruthy o = true) : o.getD "" ≠ "" := by
  cases o with
  | none => simp [strTruthy] at h
  | some s =>
    simp only [strTruthy, bne_iff_ne, ne_eq, decide_eq_true_eq] at h
    simpa using h

theorem validateBadge_ok {p : ParsedBadge} {b : AnimeBadge}
    (h : validateBadge p = .ok b) :
    b.characterName ≠ "" ∧ b.anime ≠ "" ∧ b.reason ≠ "" ∧ b.badgeColor ≠ "" := by
  unfold validateBadge at h
  split at h
  · next hc =>
    simp only [Bool.and_eq_true] at hc
    obtain ⟨⟨⟨h1, h2⟩, h3⟩, h4⟩ := hc
    obtain rfl : (⟨p.characterName.getD "", p.anime.getD "", p.reason.getD "",
        p.badgeColor.getD ""⟩ : AnimeBadge) = b := by simpa using h
    exact ⟨strTruthy_getD h1, strTruthy_getD h2, strTruthy_getD h3, strTruthy_getD h4⟩
  · simp at h

theorem validateBadge_fail {p : ParsedBadge}
    (h : strTruthy p.characterName = false ∨ strTruthy p.anime = false ∨
         strTruthy p.reason = false ∨ strTruthy p.badgeColor = false) :
    validateBadge p = .error "AI response is missing required fields." := by
  unfold validateBadge
  rw [if_neg]
  intro hc
  simp only [Bool.and_eq_true] at hc
  obtain ⟨⟨⟨h1, h2⟩, h3⟩, h4⟩ := hc
  rcases h with h | h | h | h <;> simp_all

/-! The claims. -/

/-- C2, counterexample.  The claim asserts that for every payload, the
fence-stripped text equals the payload exactly, and that unwrapping is
idempotent.  Both fail: the payload ` x ` (with surrounding spaces)
wrapped as an anchored json fence unwraps to `x` because the capture is
`.trim()`ed (and the leading space is consumed by the greedy `\s*`), and
for the nested-fence text below, re-applying the unwrap changes the
already-unwrapped text again. -/
theorem c2_counterexample :
    unwrapFence "```json\n x \n```".toList ≠ " x ".toList ∧
    unwrapFence (unwrapFence "```json\n```json\nx\n```\n```".toList) ≠
      unwrapFence "```json\n```json\nx\n```\n```".toList := by
  decide

/-- C2, amended: for every nonempty payload whose first and last
characters are not whitespace, text consisting exactly of the payload
wrapped in an anchored fence (with or without the `json` tag, newline,
payload — internal newlines allowed — newline, closing backticks) unwraps
to the payload exactly; text that does not both start and end with a
triple backtick is used unmodified; and unwrapping is idempotent on any
text whose unwrap result does not start with a triple backtick. -/
theorem c2_amended :
    (∀ p : List Char, p ≠ [] → noWsHead p = true → noWsLast p = true →
      unwrapFence (wrapJson p) = p ∧ unwrapFence (wrapPlain p) = p) ∧
    (∀ t : List Char, backtick3.isPrefixOf t = false ∨ tailTicks t = false →
      unwrapFence t = t) ∧
    (∀ t : List Char, backtick3.isPrefixOf (unwrapFence t) = false →
      unwrapFence (unwrapFence t) = unwrapFence t) := by
  refine ⟨fun p hne hh hl => ⟨unwrap_wrapJson p hne hh hl, unwrap_wrapPlain p hne hh hl⟩,
    fun t h => ?_, fun t h => unwrap_notTicks h⟩
  rcases h with h | h
  · exact unwrap_notTicks h
  · exact unwrap_noTail h

/-- C2, witness: the amended theorem applied to the two-line payload of
the example given in the spec, to a plain unfenced text, and to an idempotence
instance. -/
theorem c2_witness :
    unwrapFence (wrapJson "\x7b\"a\":1\x7d\n\x7b\"b\":2\x7d".toList) =
      "\x7b\"a\":1\x7d\n\x7b\"b\":2\x7d".toList ∧
    unwrapFence "plain text".toList = "plain text".toList ∧
    unwrapFence (unwrapFence "hello".toList) = unwrapFence "hello".toList := by
  exact ⟨(c2_amended.1 _ (by decide) (by decide) (by decide)).1,
    c2_amended.2.1 _ (Or.inl (by decide)),
    c2_amended.2.2 _ (by decide)⟩

/-- C1, counterexample.  The claim asserts every successfully returned
badge has a `badgeColor` matching the hex pattern.  The validation at
geminiService.ts:135 only checks truthiness, so a generated text whose
`badgeColor` is `blue` is returned as-is. -/
theorem c1_counterexample :
    getAnimeBadgeFromData blueParse blueData =
      .ok ⟨"Zabuza", "Naruto", "A stealthy and precise operator.", "blue"⟩ ∧
    specHexColor "blue" = false := by
  exact ⟨rfl, rfl⟩

/-- C1, amended: for every parser behaviour and response body, when the
badge resolver returns a badge, all four of its fields are non-empty (no
partially populated badge); the badge-colour format itself is not
validated. -/
theorem c1_amended (parse : String → Except String ParsedBadge) (d : ORData)
    (b : AnimeBadge) (h : getAnimeBadgeFromData parse d = .ok b) :
    b.characterName ≠ "" ∧ b.anime ≠ "" ∧ b.reason ≠ "" ∧ b.badgeColor ≠ "" := by
  unfold getAnimeBadgeFromData at h
  split at h
  · split at h
    · split at h
      · exact Except.noConfusion h
      · split at h
        · exact Except.noConfusion h
        · rename_i p hp b0 hb0
          obtain rfl : b0 = b := Except.ok.inj h
          exact validateBadge_ok hb0
    · exact Except.noConfusion h
  · exact Except.noConfusion h

/-- C1, witness: the amended theorem applied at the concrete `blue` run. -/
theorem c1_witness :
    ("Zabuza" : String) ≠ "" ∧ ("Naruto" : String) ≠ "" ∧
    ("A stealthy and precise operator." : String) ≠ "" ∧ ("blue" : String) ≠ "" :=
  c1_amended blueParse blueData
    ⟨"Zabuza", "Naruto", "A stealthy and precise operator.", "blue"⟩ rfl

/-- C5, counterexample.  The claim asserts the missing-field error lists
the missing field names (here `badgeColor`).  The thrown message is the
fixed text `AI response is missing required fields.` (wrapped by the
catch block) and does not contain `badgeColor`. -/
theorem c5_counterexample :
    getAnimeBadgeFromData noColorParse noColorData =
      .error "Failed to get anime badge from OpenRouter: AI response is missing required fields." ∧
    strIncludes
      "Failed to get anime badge from OpenRouter: AI response is missing required fields."
      "badgeColor" = false := by
  exact ⟨rfl, rfl⟩

/-- C5, amended: whenever the generated text parses as JSON but one or
more of the four required badge fields is absent or empty, the resolver
fails with the fixed incomplete-response message (wrapped by the catch
block); the message does not name the individual missing fields. -/
theorem c5_amended (parse : String → Except String ParsedBadge) (content : String)
    (rest : List ORChoice) (p : ParsedBadge)
    (hp : parse (prepContent content) = .ok p)
    (hf : strTruthy p.characterName = false ∨ strTruthy p.anime = false ∨
          strTruthy p.reason = false ∨ strTruthy p.badgeColor = false) :
    getAnimeBadgeFromData parse ⟨some (⟨some ⟨content⟩⟩ :: rest)⟩ =
      .error "Failed to get anime badge from OpenRouter: AI response is missing required fields." := by
  unfold getAnimeBadgeFromData
  dsimp only
  rw [hp]
  dsimp only
  rw [validateBadge_fail hf]
  rfl

/-- C5, witness: the amended theorem applied at the concrete
missing-`badgeColor` run. -/
theorem c5_witness :
    getAnimeBadgeFromData noColorParse ⟨some [⟨some ⟨noColorContent⟩⟩]⟩ =
      .error "Failed to get anime badge from OpenRouter: AI response is missing required fields." :=
  c5_amended noColorParse noColorContent [] noColorParsed rfl
    (Or.inr (Or.inr (Or.inr rfl)))

/-- C6, code bug.  The claim (and the test of this repository at
debug-test.ts:378-387 and its summary at debug-test.ts:882) requires every
JSON parse failure to surface the generic invalid-response wording.  The
classifier at geminiService.ts:147 only recognises parse failures whose
message contains `JSON.parse` — SpiderMonkey wording.  On V8 (Node, where
the jest tests of this repository run) the `SyntaxError` message is e.g.
`Unexpected token I in JSON at position 0`, so the error falls through to
the generic wrapper and leaks the internal wording of the parser. -/
theorem c6_code_bug_eval :
    getAnimeBadgeFromData v8Parse invalidJsonData =
      .error "Failed to get anime badge from OpenRouter: Unexpected token I in JSON at position 0" ∧
    ("Failed to get anime badge from OpenRouter: Unexpected token I in JSON at position 0" : String) ≠
      "The AI returned an invalid response. Please try again." := by
  exact ⟨rfl, by decide⟩

/-- C9: whenever the HTTP-successful body lacks `choices`, has an empty
`choices` array, or its first choice lacks `message`, the resolver fails
with the invalid-structure message inside the badge-failure wrapper — the
`content` access is only reached when the structure check passed. -/
theorem c9_struct_guard (parse : String → Except String ParsedBadge) (d : ORData)
    (h : d.choices = none ∨ d.choices = some [] ∨
         ∃ c0 cs, d.choices = some (c0 :: cs) ∧ c0.message = none) :
    getAnimeBadgeFromData parse d =
      .error "Failed to get anime badge from OpenRouter: Invalid response structure from OpenRouter API" := by
  obtain ⟨ch⟩ := d
  have hc : catchBadge ⟨"Error", "Invalid response structure from OpenRouter API"⟩ =
      "Failed to get anime badge from OpenRouter: Invalid response structure from OpenRouter API" := by
    decide
  rcases h with h | h | ⟨c0, cs, h, hm⟩ <;> simp only at h
  · subst h
    simpa [getAnimeBadgeFromData] using hc
  · subst h
    simpa [getAnimeBadgeFromData] using hc
  · subst h
    obtain ⟨msg⟩ := c0
    simp only at hm
    subst hm
    simpa [getAnimeBadgeFromData] using hc

/-- C9, witness: the structure guard applied at a body with no `choices`
field. -/
theorem c9_witness :
    getAnimeBadgeFromData blueParse ⟨none⟩ =
      .error "Failed to get anime badge from OpenRouter: Invalid response structure from OpenRouter API" :=
  c9_struct_guard blueParse ⟨none⟩ (Or.inl rfl)

/-- C3: for every badge with the data-model invariant (non-empty
`characterName` and `anime`) and every outcome of the character-search
call, the lookup avatar resolver returns some image reference — every
failure inside the `try` block is swallowed by the `catch`, which returns
the default image. -/
theorem c3_never_fails (badge : AnimeBadge) (jk : JikanOutcome)
    (h1 : badge.characterName ≠ "") (h2 : badge.anime ≠ "") :
    ∃ url, generateAvatarLookup badge jk = .ok url := by
  unfold generateAvatarLookup
  rw [if_neg (show ¬((badge.characterName == "" || badge.anime == "") = true) by
    simp [h1, h2])]
  cases hb : avatarTryBody badge jk with
  | ok u => exact ⟨u, by simp⟩
  | error e => exact ⟨defaultAvatarImg, by simp⟩

/-- C3, witness: the no-fail contract at a badge outside the static map
with a rejected search call. -/
theorem c3_witness :
    ∃ url, generateAvatarLookup ⟨"Muzan", "Demon Slayer", "commanding", "#770000"⟩
      (.reject "network down") = .ok url :=
  c3_never_fails ⟨"Muzan", "Demon Slayer", "commanding", "#770000"⟩
    (.reject "network down") (by decide) (by decide)

/-- C4, counterexample.  The claim asserts that a failing search call
yields the per-series default for a known `anime`.  A failing call throws
(geminiService.ts:367), and the `catch` returns the single global default
image for every series, bypassing the per-series table: for
`anime: Demon Slayer` the result is the Naruto-character global default,
not the Demon Slayer per-series default `271763.jpg`. -/
theorem c4_counterexample :
    generateAvatarLookup ⟨"Muzan", "Demon Slayer", "commanding", "#770000"⟩
      (.resp false 500 none) =
      .ok "https://cdn.myanimelist.net/images/characters/2/284121.jpg" ∧
    ("https://cdn.myanimelist.net/images/characters/2/284121.jpg" : String) ≠
      "https://cdn.myanimelist.net/images/characters/15/271763.jpg" := by
  exact ⟨rfl, by decide⟩

/-- C4, amended: for a badge outside the static map, a failing search
call (non-ok response or rejected promise) yields the global default
image regardless of the `anime` value, while a successful search with no
usable result yields the per-series fallback (with the global default for
unrecognised series); in all cases the resolver returns rather than
raises. -/
theorem c4_amended (badge : AnimeBadge) (h1 : badge.characterName ≠ "")
    (h2 : badge.anime ≠ "")
    (hmap : characterImages.lookup badge.characterName = none) :
    (∀ st d, generateAvatarLookup badge (.resp false st d) = .ok defaultAvatarImg) ∧
    (∀ msg, generateAvatarLookup badge (.reject msg) = .ok defaultAvatarImg) ∧
    (∀ st, generateAvatarLookup badge (.resp true st none) =
      .ok (jikanFallback badge.anime)) := by
  have hneg : ¬((badge.characterName == "" || badge.anime == "") = true) := by
    simp [h1, h2]
  refine ⟨fun st d => ?_, fun msg => ?_, fun st => ?_⟩ <;>
    simp [generateAvatarLookup, avatarTryBody, hmap, if_neg hneg, h1, h2]

/-- C4, witness: the amended behaviour at the concrete `Muzan` badge —
failing call gives the global default, empty success gives the
Demon Slayer fallback. -/
theorem c4_witness :
    generateAvatarLookup ⟨"Muzan", "Demon Slayer", "commanding", "#770000"⟩
      (.resp true 200 none) = .ok (jikanFallback "Demon Slayer") :=
  (c4_amended ⟨"Muzan", "Demon Slayer", "commanding", "#770000"⟩
    (by decide) (by decide) (by decide)).2.2 200

/-- C7, counterexample.  The claim asserts that upstream quota exhaustion
produces the distinct rate-limited error.  GitHub signals quota exhaustion
with an HTTP 403/429 response; on a non-ok user response the code itself
throws `Failed to fetch user data. Status: 403`, whose text does not
contain the marker `API rate limit exceeded`, so the catch re-throws the
generic status error instead of the rate-limited one. -/
theorem c7_counterexample :
    getUserProfileData "octocat" (Except.ok (⟨false, 403, ()⟩ : FetchR Unit))
      (Except.ok (⟨true, 200, ()⟩ : FetchR Unit)) =
      .error "Failed to fetch user data. Status: 403" ∧
    ("Failed to fetch user data. Status: 403" : String) ≠
      "GitHub API rate limit exceeded. Please wait and try again later." := by
  exact ⟨rfl, by decide⟩

/-- C7, amended: an HTTP 403 or 429 user response yields the generic
status-carrying upstream error; the rate-limited classification is
produced when a thrown error carries the marker `API rate limit exceeded`
in its message text — here, a rejected user fetch carrying the upstream
own message while the repositories request resolves (when both fetches
reject, which rejection propagates is a timing race of `Promise.all`, so
no outcome is guaranteed and none is claimed). -/
theorem c7_amended :
    (∀ (α β : Type) (username : String) (u : α) (r : FetchR β),
      getUserProfileData username (Except.ok (⟨false, 403, u⟩ : FetchR α)) (.ok r) =
        .error "Failed to fetch user data. Status: 403") ∧
    (∀ (α β : Type) (username : String) (u : α) (r : FetchR β),
      getUserProfileData username (Except.ok (⟨false, 429, u⟩ : FetchR α)) (.ok r) =
        .error "Failed to fetch user data. Status: 429") ∧
    (∀ (α β : Type) (username msg : String) (r : FetchR β),
      strIncludes msg "API rate limit exceeded" = true →
      getUserProfileData username (Except.error msg : Except String (FetchR α)) (.ok r) =
        .error "GitHub API rate limit exceeded. Please wait and try again later.") := by
  refine ⟨fun α β username u r => by unfold getUserProfileData promiseAll2; dsimp only; rfl,
    fun α β username u r => by unfold getUserProfileData promiseAll2; dsimp only; rfl,
    fun α β username msg r hm => ?_⟩
  unfold getUserProfileData promiseAll2
  simp [hm]

/-- C7, witness: the amended behaviour at a 429 quota response and at a
rejected fetch carrying the upstream marker text. -/
theorem c7_witness :
    getUserProfileData "octocat" (Except.ok (⟨false, 429, ()⟩ : FetchR Unit))
      (Except.ok (⟨true, 200, ()⟩ : FetchR Unit)) =
      .error "Failed to fetch user data. Status: 429" ∧
    getUserProfileData "octocat"
      (Except.error "API rate limit exceeded for 1.2.3.4" : Except String (FetchR Unit))
      (Except.ok (⟨true, 200, ()⟩ : FetchR Unit)) =
      .error "GitHub API rate limit exceeded. Please wait and try again later." :=
  ⟨c7_amended.2.1 Unit Unit "octocat" () ⟨true, 200, ()⟩,
   c7_amended.2.2 Unit Unit "octocat" "API rate limit exceeded for 1.2.3.4"
     ⟨true, 200, ()⟩ (by decide)⟩

/-- C8, counterexample.  The claim asserts that a 404 user response is
converted to the not-found error regardless of the outcome of the
repositories request.  If the repositories fetch rejects at transport
level, `Promise.all` rejects with that error before the user response is
ever checked, and the catch re-throws the transport error. -/
theorem c8_counterexample :
    getUserProfileData "alice" (Except.ok (⟨false, 404, ()⟩ : FetchR Unit))
      (Except.error "fetch failed" : Except String (FetchR Unit)) =
      .error "fetch failed" ∧
    ("fetch failed" : String) ≠ "GitHub user not found: alice." := by
  exact ⟨rfl, by decide⟩

/-- C8, amended: if the user request returns a 404 response and the
repositories request also yields a response (of any status), the
not-found error naming the username is produced — the user response is
checked first.  (The marker-freeness hypothesis excludes usernames whose
not-found message would itself contain the rate-limit marker.) -/
theorem c8_amended (α β : Type) (username : String) (u : α) (rr : FetchR β)
    (hm : strIncludes ("GitHub user not found: " ++ username ++ ".")
      "API rate limit exceeded" = false) :
    getUserProfileData username (Except.ok (⟨false, 404, u⟩ : FetchR α)) (.ok rr) =
      .error ("GitHub user not found: " ++ username ++ ".") := by
  unfold getUserProfileData promiseAll2
  simp [hm]

/-- C8, witness: the not-found precedence at a concrete username with a
failed (HTTP 500) repositories response. -/
theorem c8_witness :
    getUserProfileData "alice" (Except.ok (⟨false, 404, ()⟩ : FetchR Unit))
      (Except.ok (⟨false, 500, ()⟩ : FetchR Unit)) =
      .error ("GitHub user not found: " ++ "alice" ++ ".") :=
  c8_amended Unit Unit "alice" () ⟨false, 500, ()⟩ (by decide)

/-- C10: the generative avatar variant rejects every badge with an empty
or missing `characterName`, `anime` or `badgeColor` with the invalid-badge
error, for every possible outcome of the image endpoint — i.e. before the
prompt is used or any network call is consulted. -/
theorem c10_invalid_badge (badge : AnimeBadge) (net : ImgOutcome)
    (h : badge.characterName = "" ∨ badge.anime = "" ∨ badge.badgeColor = "") :
    generateAvatarGen badge net = .error "Invalid badge data provided" := by
  unfold generateAvatarGen
  rw [if_pos]
  rcases h with h | h | h <;> simp [h]

/-- C10, witness: the guard at a badge with empty `characterName`, even
when the image endpoint would have succeeded. -/
theorem c10_witness :
    generateAvatarGen ⟨"", "Naruto", "resilient", "#FF7F00"⟩
      (.resp true 200 "OK" (some "aGVsbG8=")) = .error "Invalid badge data provided" :=
  c10_invalid_badge ⟨"", "Naruto", "resilient", "#FF7F00"⟩
    (.resp true 200 "OK" (some "aGVsbG8=")) (Or.inl rfl)
